import Mathlib

/-!
Verification of the WebSocket frame codec and the connection/room registry of
the native WebSocket server (src/native/websocket/websocket.cc).

The C++ code is shallowly embedded: byte buffers become `List Nat` (each entry
one octet), the per-connection state becomes the structure `Conn`, rooms become
`Room`, and the server's two registries become `ServerState`.  Side effects that
leave the core (writing bytes to the transport, closing the TCP handle,
invoking a JavaScript callback) are recorded as explicit `WsAction` values in
the order the code performs them.
-/

namespace Ws

/-- Frame opcodes, from the `#define`s at the top of websocket.cc. -/
def WS_CONTINUATION : Nat := 0x0

/-- Text frame opcode. -/
def WS_TEXT : Nat := 0x1

/-- Binary frame opcode. -/
def WS_BINARY : Nat := 0x2

/-- Close frame opcode. -/
def WS_CLOSE : Nat := 0x8

/-- Ping frame opcode. -/
def WS_PING : Nat := 0x9

/-- Pong frame opcode. -/
def WS_PONG : Nat := 0xA

/-- The byte string produced by `WebSocketConnection::SendFrame`
(websocket.cc lines 314-368).  Byte 0 is `0x80 | opcode` (FIN always set).
Byte 1 carries the 7-bit length field (126 and 127 select the 16-bit and
64-bit big-endian extended encodings) and, when `mask` is requested, the
mask bit `0x80`.  Note that the code never emits a mask key and never XORs
the payload: after the length field it copies the payload verbatim. -/
def sendFrameBytes (opcode : Nat) (payload : List Nat) (mask : Bool) : List Nat :=
  let length := payload.length
  let b1base : Nat :=
    if length ≤ 125 then length
    else if length ≤ 65535 then 126
    else 127
  let ext : List Nat :=
    if length ≤ 125 then []
    else if length ≤ 65535 then [(length >>> 8) &&& 0xFF, length &&& 0xFF]
    else (List.range 8).map (fun i => (length >>> ((7 - i) * 8)) &&& 0xFF)
  let b1 := if mask then b1base ||| 0x80 else b1base
  (((0x80 ||| opcode) % 256) :: b1 :: ext) ++ payload

/-- The header size computed by `SendFrame` when accounting `bytesSent_`:
2 bytes, +2 for a 16-bit length, +8 for a 64-bit length (no allowance is
ever made for a mask key). -/
def sendFrameHeaderSize (length : Nat) : Nat :=
  if 125 < length ∧ length ≤ 65535 then 4
  else if 65535 < length then 10
  else 2

/-- Close-frame payload built by `WebSocketConnection::Close`
(lines 394-405): 2-byte big-endian status code followed by the reason. -/
def closePayload (code : Nat) (reason : List Nat) : List Nat :=
  ((code >>> 8) &&& 0xFF) :: (code &&& 0xFF) :: reason

/-- A parsed frame as `WebSocketConnection::HandleFrame` extracts it: the
low nibble of byte 0 (the code never reads the FIN bit), the mask flag,
and the (unmasked) payload. -/
structure Frame where
  opcode : Nat
  masked : Bool
  payload : List Nat
deriving DecidableEq

/-- Unmasking loop of `HandleFrame` (lines 464-471):
`unmasked[i] = payload[i] ^ mask_key[i % 4]`. -/
def unmaskPayload (key : List Nat) (payload : List Nat) : List Nat :=
  payload.enum.map (fun p => p.2 ^^^ key.getD (p.1 % 4) 0)

/-- Frame parsing part of `WebSocketConnection::HandleFrame`
(lines 420-471).  Mirrors the code exactly: at least 2 header bytes,
then the optional 2- or 8-byte extended length, then the 4-byte mask key
iff the mask bit is set, then a completeness check on the payload; any
shortfall makes the function return `none` (the code `return`s, dropping
the bytes).  Trailing bytes beyond one frame are ignored, as in the code. -/
def parseFrame (frame : List Nat) : Option Frame :=
  match frame with
  | b0 :: b1 :: rest =>
    let opcode := b0 &&& 0x0F
    let isMasked := b1 &&& 0x80 ≠ 0
    let pl0 := b1 &&& 0x7F
    let ext : Option (Nat × List Nat) :=
      if pl0 = 126 then
        match rest with
        | e0 :: e1 :: rest2 => some ((e0 <<< 8) ||| e1, rest2)
        | _ => none
      else if pl0 = 127 then
        match rest with
        | e0 :: e1 :: e2 :: e3 :: e4 :: e5 :: e6 :: e7 :: rest2 =>
          some ([e0, e1, e2, e3, e4, e5, e6, e7].foldl
            (fun acc b => (acc <<< 8) ||| b) 0, rest2)
        | _ => none
      else some (pl0, rest)
    match ext with
    | none => none
    | some (payloadLength, afterLen) =>
      if isMasked then
        match afterLen with
        | k0 :: k1 :: k2 :: k3 :: afterMask =>
          if afterMask.length < payloadLength then none
          else some ⟨opcode, true,
            unmaskPayload [k0, k1, k2, k3] (afterMask.take payloadLength)⟩
        | _ => none
      else
        if afterLen.length < payloadLength then none
        else some ⟨opcode, false, afterLen.take payloadLength⟩
  | _ => none

/-- Effects the connection code performs against the transport and the
server callbacks, in program order: `sendFrame` is a `SendFrame` call
(bytes handed to `uv_write`), `uvClose` is the `uv_close` of the client
handle inside `Close`, and the `notify…` constructors are the
`server_->On…` notifications. -/
inductive WsAction where
  | sendFrame (opcode : Nat) (payload : List Nat) (mask : Bool)
  | uvClose
  | notifyMessage (payload : List Nat)
  | notifyBinary (payload : List Nat)
  | notifyPing
  | notifyPong
  | notifyDisconnect (code : Nat) (reason : List Nat)
deriving DecidableEq

/-- Per-connection state (`WebSocketConnection` fields): `isOpen` stands for
`client_ != nullptr && client_->data != nullptr`, the rest are the
like-named members. -/
structure Conn where
  id : Nat
  isOpen : Bool
  isAlive : Bool
  rooms : List String
  bytesSent : Nat
  bytesReceived : Nat
  lastActivity : Nat
deriving DecidableEq

/-- A freshly accepted connection (constructor, lines 223-242). -/
def Conn.init (id : Nat) : Conn :=
  { id := id, isOpen := true, isAlive := true, rooms := []
    bytesSent := 0, bytesReceived := 0, lastActivity := 0 }

/-- `WebSocketConnection::SendFrame` as a state transition: a no-op when
the connection is closed, otherwise the encoded bytes go to the transport
and `bytesSent_` grows by header size plus payload length (lines 314-368). -/
def Conn.sendFrameOp (c : Conn) (opcode : Nat) (payload : List Nat) (mask : Bool) :
    Conn × List WsAction :=
  if c.isOpen then
    ({ c with bytesSent := c.bytesSent + (sendFrameHeaderSize payload.length + payload.length) },
     [.sendFrame opcode payload mask])
  else (c, [])

/-- `WebSocketConnection::Close` (lines 389-417): when still open, send a
Close frame carrying the status code and reason, close the handle
(`uv_close`), null the handle and clear `isAlive_`; otherwise a no-op. -/
def Conn.close (c : Conn) (code : Nat) (reason : List Nat) : Conn × List WsAction :=
  if c.isOpen then
    let r := c.sendFrameOp WS_CLOSE (closePayload code reason) false
    ({ r.1 with isOpen := false, isAlive := false }, r.2 ++ [.uvClose])
  else (c, [])

/-- `WebSocketConnection::HandleFrame` (lines 420-511): parse one frame
from the delivered bytes and dispatch on the opcode.  Text and Binary
notify the server; Ping echoes a Pong with the same payload and then
notifies; Pong marks the connection alive and notifies; Close parses the
status code (defaulting to 1000) and reason from the payload, answers
with a Close via `Close(code, reason)` and notifies `OnDisconnect`.
Every other opcode (Continuation included) falls off the `switch` and
does nothing.  An incomplete or too-short frame does nothing at all. -/
def handleFrameS (c : Conn) (bytes : List Nat) : Conn × List WsAction :=
  match parseFrame bytes with
  | none => (c, [])
  | some f =>
    if f.opcode = WS_TEXT then (c, [.notifyMessage f.payload])
    else if f.opcode = WS_BINARY then (c, [.notifyBinary f.payload])
    else if f.opcode = WS_PING then
      let r := c.sendFrameOp WS_PONG f.payload false
      (r.1, r.2 ++ [.notifyPing])
    else if f.opcode = WS_PONG then ({ c with isAlive := true }, [.notifyPong])
    else if f.opcode = WS_CLOSE then
      let code := if 2 ≤ f.payload.length then
        ((f.payload.getD 0 0) <<< 8) ||| f.payload.getD 1 0 else 1000
      let reason := if 2 < f.payload.length then f.payload.drop 2 else []
      let r := c.close code reason
      (r.1, r.2 ++ [.notifyDisconnect code reason])
    else (c, [])

/-- ASCII bytes of "Protocol error". -/
def protocolErrorReason : List Nat :=
  [80, 114, 111, 116, 111, 99, 111, 108, 32, 101, 114, 114, 111, 114]

/-- ASCII bytes of "Connection closed by client". -/
def clientClosedReason : List Nat :=
  [67, 111, 110, 110, 101, 99, 116, 105, 111, 110, 32, 99, 108, 111, 115,
   101, 100, 32, 98, 121, 32, 99, 108, 105, 101, 110, 116]

/-- ASCII bytes of "Server shutting down". -/
def serverShuttingDownReason : List Nat :=
  [83, 101, 114, 118, 101, 114, 32, 115, 104, 117, 116, 116, 105, 110, 103,
   32, 100, 111, 119, 110]

/-- `WebSocketConnection::OnRead` for `nread < 0` (lines 254-268): a read
error closes with `Close(1002, "Protocol error")`, EOF with
`Close(1000, "Connection closed by client")`. -/
def onReadError (c : Conn) (isEof : Bool) : Conn × List WsAction :=
  if isEof then c.close 1000 clientClosedReason
  else c.close 1002 protocolErrorReason

/-- `WebSocketConnection::OnRead` for `nread > 0` (lines 278-290): add the
read size to `bytesReceived_`, stamp `lastActivity_`, then hand exactly
the bytes of this one read to `HandleFrame`. -/
def onReadData (c : Conn) (bytes : List Nat) (now : Nat) : Conn × List WsAction :=
  handleFrameS
    { c with bytesReceived := c.bytesReceived + bytes.length, lastActivity := now }
    bytes

/-- A sequence of transport deliveries: `OnRead` runs once per chunk and
keeps no buffer between reads — each chunk is parsed in isolation. -/
def processReads (c : Conn) (chunks : List (List Nat)) (now : Nat) :
    Conn × List WsAction :=
  chunks.foldl
    (fun acc chunk =>
      let r := onReadData acc.1 chunk now
      (r.1, acc.2 ++ r.2))
    (c, [])

/-- A room (`WebSocketRoom`): ordered membership (ids stand for the
`WebSocketConnection*` entries of `connections_`, in insertion order),
`maxSize_` (0 = unlimited) and the message history deque. -/
structure Room where
  name : String
  connections : List Nat
  maxSize : Nat
  messageHistory : List (List Nat)
deriving DecidableEq

/-- Room constructor (lines 600-602): empty membership, `maxSize_ = 0`. -/
def Room.init (name : String) : Room :=
  { name := name, connections := [], maxSize := 0, messageHistory := [] }

/-- `SetMaxSize` setter. -/
def Room.setMaxSize (r : Room) (n : Nat) : Room := { r with maxSize := n }

/-- `WebSocketRoom::AddConnection` (lines 608-623): a no-op for an existing
member; at capacity (`maxSize_ > 0 && connections_.size() >= maxSize_`) the
front element — the earliest inserted — is erased before the new member is
pushed to the back. -/
def Room.addConnection (r : Room) (c : Nat) : Room :=
  if c ∈ r.connections then r
  else if 0 < r.maxSize ∧ r.maxSize ≤ r.connections.length then
    { r with connections := r.connections.tail ++ [c] }
  else { r with connections := r.connections ++ [c] }

/-- `WebSocketRoom::RemoveConnection` (lines 626-633): erase the first
occurrence, if any. -/
def Room.removeConnection (r : Room) (c : Nat) : Room :=
  { r with connections := r.connections.erase c }

/-- `WebSocketConnection::JoinRoom` (lines 555-564): append the room name
to the connection's own list unless already present. -/
def Conn.joinRoom (c : Conn) (roomName : String) : Conn :=
  if roomName ∈ c.rooms then c else { c with rooms := c.rooms ++ [roomName] }

/-- `WebSocketConnection::LeaveRoom` (lines 567-574). -/
def Conn.leaveRoom (c : Conn) (roomName : String) : Conn :=
  { c with rooms := c.rooms.erase roomName }

/-- `WebSocketConnection::LeaveAllRooms` (lines 576-579). -/
def Conn.leaveAllRooms (c : Conn) : Conn := { c with rooms := [] }

/-- The server's owned registries (`WebSocketServer` fields): the
`connections_` and `rooms_` maps, `isRunning_`, `maxConnections_`, and
whether the listening handle is live (set up by `Start`, closed by
`Stop`). -/
structure ServerState where
  connections : List Conn
  rooms : List Room
  isRunning : Bool
  listening : Bool
  maxConnections : Nat
deriving DecidableEq

/-- `GetConnection`: lookup in the `connections_` map by id. -/
def findConn (s : ServerState) (id : Nat) : Option Conn :=
  s.connections.find? (fun c => c.id == id)

/-- Lookup in the `rooms_` map by name. -/
def findRoom (rooms : List Room) (name : String) : Option Room :=
  rooms.find? (fun r => r.name == name)

/-- `GetRoom(name, create = true)` on the registry: return it unchanged if
the room exists, otherwise insert a fresh room (lines 980-993). -/
def ensureRoom (rooms : List Room) (name : String) : List Room :=
  if (findRoom rooms name).isSome then rooms else rooms ++ [Room.init name]

/-- Names listed by `GetRooms` (lines 1015-1027). -/
def getRoomsList (s : ServerState) : List String := s.rooms.map (·.name)

/-- Members of a room as ids, `[]` when the room does not exist
(`GetRoomConnections`, lines 1069-1092). -/
def roomMembers (s : ServerState) (name : String) : List Nat :=
  ((findRoom s.rooms name).map (·.connections)).getD []

/-- The room-name list a connection itself holds, `[]` for an unknown id
(`GetConnectionRooms`, lines 1030-1046). -/
def connRooms (s : ServerState) (id : Nat) : List String :=
  ((findConn s id).map (·.rooms)).getD []

/-- `WebSocketServer::JoinRoom` (lines 1201-1219) followed by `OnRoomJoin`
(lines 1589-1607): silently ignore an unknown id; otherwise the connection
records the room name (`WebSocketConnection::JoinRoom`) and the room —
created on demand — records the connection (`WebSocketRoom::AddConnection`,
with its capacity eviction). -/
def serverJoinRoom (s : ServerState) (id : Nat) (roomName : String) : ServerState :=
  match findConn s id with
  | none => s
  | some _ =>
    { s with
      connections := s.connections.map (fun c => if c.id == id then c.joinRoom roomName else c)
      rooms := (ensureRoom s.rooms roomName).map
        (fun r => if r.name == roomName then r.addConnection id else r) }

/-- `WebSocketServer::LeaveRoom` (lines 1222-1240) followed by
`OnRoomLeave` (lines 1610-1637): silently ignore an unknown id; the
connection drops the name, then — if the room exists — the room drops the
member and, when its member count hits zero, the room is erased from the
registry. -/
def serverLeaveRoom (s : ServerState) (id : Nat) (roomName : String) : ServerState :=
  match findConn s id with
  | none => s
  | some _ =>
    let s1 := { s with
      connections := s.connections.map (fun c => if c.id == id then c.leaveRoom roomName else c) }
    match findRoom s1.rooms roomName with
    | none => s1
    | some r =>
      let r' := r.removeConnection id
      let rooms1 := s1.rooms.map (fun x => if x.name == roomName then r' else x)
      if r'.connections.length = 0 then
        { s1 with rooms := rooms1.filter (fun x => x.name != roomName) }
      else { s1 with rooms := rooms1 }

/-- `WebSocketServer::SetMaxRoomSize` (lines 696-712): `GetRoom` with
creation, then `SetMaxSize`. -/
def serverSetMaxRoomSize (s : ServerState) (roomName : String) (n : Nat) : ServerState :=
  { s with rooms := (ensureRoom s.rooms roomName).map
              (fun r => if r.name == roomName then r.setMaxSize n else r) }

/-- `WebSocketServer::OnDisconnect` (lines 1562-1586): the connection
clears its own room list (`LeaveAllRooms`), the disconnect event fires, and
the connection is erased from the `connections_` map.  Crucially the code
never calls `WebSocketRoom::RemoveConnection` here, so every room's member
list is left untouched. -/
def serverOnDisconnect (s : ServerState) (id : Nat) : ServerState :=
  { s with connections :=
              (s.connections.map
                (fun c => if c.id == id then c.leaveAllRooms else c)).filter
                (fun c => c.id != id) }

/-- `WebSocketServer::Stop` (lines 1340-1364): a no-op unless running;
otherwise `Close(1001, "Server shutting down")` on every connection (the
close frame is only sent while the connection is still open), `uv_close`
on the listening handle, and `isRunning_ = false`.  The `connections_` and
`rooms_` maps are NOT cleared here.  Returns the new state and the actions
of each connection tagged with its id. -/
def serverStop (s : ServerState) : ServerState × List (Nat × WsAction) :=
  if s.isRunning then
    let results := s.connections.map (fun c =>
      let r := c.close 1001 serverShuttingDownReason
      (r.1, r.2.map (fun a => (c.id, a))))
    ({ s with connections := results.map (·.1), isRunning := false, listening := false },
     (results.map (·.2)).flatten)
  else (s, [])

/-- The bidirectional membership-mirror invariant stated by the spec: a
connection's own `rooms` list and the rooms' member lists agree. -/
def mirrorConsistent (s : ServerState) : Prop :=
  ∀ c ∈ s.connections, ∀ r ∈ s.rooms, (r.name ∈ c.rooms ↔ c.id ∈ r.connections)

instance (s : ServerState) : Decidable (mirrorConsistent s) := by
  unfold mirrorConsistent; infer_instance

/-! ### Codec lemmas -/

lemma parse_fixed (b0 op n : Nat) (hb : b0 &&& 0x0F = op)
    (hm : n &&& 0x80 = 0) (h7 : n &&& 0x7F = n) (h126 : n ≠ 126) (h127 : n ≠ 127)
    (payload : List Nat) (h : payload.length = n) :
    parseFrame (b0 :: n :: payload) = some ⟨op, false, payload⟩ := by
  subst h
  simp [parseFrame, h7, h126, h127, hm, hb]

lemma parse_ext16 (b0 op e0 e1 n : Nat) (hb : b0 &&& 0x0F = op)
    (he : (e0 <<< 8) ||| e1 = n)
    (payload : List Nat) (h : payload.length = n) :
    parseFrame (b0 :: 126 :: e0 :: e1 :: payload) = some ⟨op, false, payload⟩ := by
  subst h
  simp [parseFrame, he, hb, (by decide : (126 : Nat) &&& 127 = 126),
    (by decide : (126 : Nat) &&& 128 = 0)]

lemma parse_ext64 (b0 op e0 e1 e2 e3 e4 e5 e6 e7 n : Nat) (hb : b0 &&& 0x0F = op)
    (he : [e0, e1, e2, e3, e4, e5, e6, e7].foldl (fun acc b => (acc <<< 8) ||| b) 0 = n)
    (payload : List Nat) (h : payload.length = n) :
    parseFrame (b0 :: 127 :: e0 :: e1 :: e2 :: e3 :: e4 :: e5 :: e6 :: e7 :: payload) =
      some ⟨op, false, payload⟩ := by
  subst h
  simp [parseFrame, he, hb, (by decide : (127 : Nat) &&& 127 = 127),
    (by decide : (127 : Nat) &&& 128 = 0)]

lemma sendFrame_small (op : Nat) (payload : List Nat) (h : payload.length ≤ 125) :
    sendFrameBytes op payload false = ((0x80 ||| op) % 256) :: payload.length :: payload := by
  simp [sendFrameBytes, h]

lemma sendFrame_ext16 (op : Nat) (payload : List Nat) (h1 : 125 < payload.length)
    (h2 : payload.length ≤ 65535) :
    sendFrameBytes op payload false =
      ((0x80 ||| op) % 256) :: 126 :: ((payload.length >>> 8) &&& 0xFF) ::
        (payload.length &&& 0xFF) :: payload := by
  simp [sendFrameBytes, Nat.not_le.mpr h1, h2]

lemma sendFrame_ext64 (op : Nat) (payload : List Nat) (h1 : 65535 < payload.length) :
    sendFrameBytes op payload false =
      ((0x80 ||| op) % 256) :: 127 ::
        ((payload.length >>> 56) &&& 0xFF) :: ((payload.length >>> 48) &&& 0xFF) ::
        ((payload.length >>> 40) &&& 0xFF) :: ((payload.length >>> 32) &&& 0xFF) ::
        ((payload.length >>> 24) &&& 0xFF) :: ((payload.length >>> 16) &&& 0xFF) ::
        ((payload.length >>> 8) &&& 0xFF) :: ((payload.length >>> 0) &&& 0xFF) :: payload := by
  have h2 : ¬ payload.length ≤ 125 := by omega
  have h3 : ¬ payload.length ≤ 65535 := by omega
  have hr : List.range 8 = [0, 1, 2, 3, 4, 5, 6, 7] := by decide
  simp [sendFrameBytes, h2, h3, hr]

/-! ### Claim theorems -/

/-- C6: for every opcode in {Text, Binary, Close, Ping, Pong} and every
payload of size 0, 1, 125, 126, 65535 or 65536, decoding the bytes
produced by `encode(opcode, payload, mask=false)` in one delivery
reproduces the exact opcode and payload bytes — the single-byte, 16-bit
big-endian and 64-bit big-endian length encodings all round-trip. -/
theorem c6_unmasked_roundtrip (op : Nat)
    (hop : op ∈ [WS_TEXT, WS_BINARY, WS_CLOSE, WS_PING, WS_PONG])
    (payload : List Nat)
    (hlen : payload.length ∈ [0, 1, 125, 126, 65535, 65536]) :
    parseFrame (sendFrameBytes op payload false) = some ⟨op, false, payload⟩ := by
  simp only [List.mem_cons, List.not_mem_nil, or_false] at hop hlen
  rcases hop with rfl | rfl | rfl | rfl | rfl <;>
    rcases hlen with h | h | h | h | h | h <;>
    first
      | (rw [sendFrame_small _ _ (by omega), h]
         exact parse_fixed _ _ _ (by decide) (by decide) (by decide) (by decide) (by decide) _ h)
      | (rw [sendFrame_ext16 _ _ (by omega) (by omega), h]
         exact parse_ext16 _ _ _ _ _ (by decide) (by decide) _ h)
      | (rw [sendFrame_ext64 _ _ (by omega), h]
         exact parse_ext64 _ _ _ _ _ _ _ _ _ _ _ (by decide) (by decide) _ h)

/-- Witness for C6 at a concrete input (Text opcode, empty payload). -/
theorem c6_witness :
    WS_TEXT ∈ [WS_TEXT, WS_BINARY, WS_CLOSE, WS_PING, WS_PONG] ∧
    ([] : List Nat).length ∈ [0, 1, 125, 126, 65535, 65536] ∧
    parseFrame (sendFrameBytes WS_TEXT [] false) = some ⟨WS_TEXT, false, []⟩ :=
  ⟨by decide, by decide, c6_unmasked_roundtrip WS_TEXT (by decide) [] (by decide)⟩

/-- C1: the decoder is NOT incremental.  The well-formed Text frame
`[0x81, 0x01, 0x41]` delivered whole produces exactly one message, but the
same bytes delivered split at offset 1 produce nothing at all: each read
is parsed in isolation and the bytes of the incomplete frame are
discarded (no accumulation buffer exists in `OnRead`/`HandleFrame`). -/
theorem c1_split_frame_dropped :
    (processReads (Conn.init 1) [[0x81, 0x01, 0x41]] 0).2 =
      [WsAction.notifyMessage [0x41]] ∧
    (processReads (Conn.init 1) [[0x81], [0x01, 0x41]] 0).2 = [] := by
  decide

/-- C3: `SendFrame` with `mask = true` sets the mask bit but emits no
4-byte mask key and applies no XOR: encoding Text `[0x41]` masked yields
the 3-byte string `[0x81, 0x81, 0x41]` (mask bit set, payload in clear),
and the code's own decoder cannot parse it back (it waits for a mask key
that was never written). -/
theorem c3_masked_encode_broken :
    sendFrameBytes WS_TEXT [0x41] true = [0x81, 0x81, 0x41] ∧
    (sendFrameBytes WS_TEXT [0x41] true).length = 3 ∧
    parseFrame (sendFrameBytes WS_TEXT [0x41] true) = none := by
  decide

/-! ### Room membership lemmas -/

/-- Membership operations performed against one room by the server code:
`AddConnection` on join and `RemoveConnection` on leave. -/
inductive RoomOp where
  | add (c : Nat)
  | remove (c : Nat)

/-- Apply one membership operation. -/
def Room.applyOp (r : Room) : RoomOp → Room
  | .add c => r.addConnection c
  | .remove c => r.removeConnection c

/-- Apply a sequence of membership operations in order. -/
def Room.applyOps (r : Room) (ops : List RoomOp) : Room :=
  ops.foldl Room.applyOp r

lemma applyOp_maxSize (r : Room) (o : RoomOp) : (r.applyOp o).maxSize = r.maxSize := by
  cases o with
  | add c =>
    simp only [Room.applyOp, Room.addConnection]
    split
    · rfl
    · split <;> rfl
  | remove c => rfl

lemma addConnection_len (r : Room) (c : Nat) (hmax : 0 < r.maxSize)
    (hlen : r.connections.length ≤ r.maxSize) :
    (r.addConnection c).connections.length ≤ r.maxSize := by
  unfold Room.addConnection
  split
  · exact hlen
  · split
    · next hcap =>
      simp [List.length_tail]
      omega
    · next hcap =>
      simp
      omega

lemma applyOp_len (r : Room) (o : RoomOp) (hmax : 0 < r.maxSize)
    (hlen : r.connections.length ≤ r.maxSize) :
    (r.applyOp o).connections.length ≤ r.maxSize := by
  cases o with
  | add c => exact addConnection_len r c hmax hlen
  | remove c =>
    simp only [Room.applyOp, Room.removeConnection]
    calc (r.connections.erase c).length ≤ r.connections.length :=
          (r.connections.erase_sublist c).length_le
      _ ≤ r.maxSize := hlen

lemma findRoom_name (rooms : List Room) (n : String) (r : Room)
    (hf : findRoom rooms n = some r) : r.name = n := by
  have h := List.find?_some hf
  simpa using h

lemma findRoom_filter_ne (rooms : List Room) (n : String) :
    findRoom (rooms.filter (fun x => x.name != n)) n = none := by
  rw [findRoom, List.find?_eq_none]
  intro x hx
  simp only [List.mem_filter, bne_iff_ne] at hx
  simp [hx.2]

lemma findRoom_map_const (rooms : List Room) (n : String) (r' : Room) (hn : r'.name = n)
    (r : Room) (hf : findRoom rooms n = some r) :
    findRoom (rooms.map (fun x => if x.name == n then r' else x)) n = some r' := by
  induction rooms with
  | nil => simp [findRoom] at hf
  | cons a t ih =>
    by_cases h : a.name = n
    · have hb : (a.name == n) = true := beq_iff_eq.mpr h
      rw [List.map_cons]
      simp only [hb, if_true]
      rw [findRoom, List.find?_cons_of_pos _ (by simp [hn])]
    · have hb : (a.name == n) = false := by simp [h]
      rw [List.map_cons]
      simp only [hb, Bool.false_eq_true, if_false]
      rw [findRoom, List.find?_cons_of_neg _ (by simp [h])]
      rw [findRoom, List.find?_cons_of_neg _ (by simp [h])] at hf
      exact ih hf

/-- C4: in a room with `maxSize > 0`, adding a new member at capacity
erases the front (earliest-joined) member and appends the new member at
the back, keeping the count at `maxSize`; under any sequence of
add/remove operations the member count never exceeds `maxSize`; and
concretely, with `maxSize = 2`, joining 1, 2, 3 in order leaves `[2, 3]`. -/
theorem c4_capacity_eviction :
    (∀ (r : Room) (c : Nat), 0 < r.maxSize → r.connections.length = r.maxSize →
        c ∉ r.connections →
        (r.addConnection c).connections = r.connections.tail ++ [c] ∧
        (r.addConnection c).connections.length = r.maxSize) ∧
    (∀ (r : Room) (ops : List RoomOp), 0 < r.maxSize →
        r.connections.length ≤ r.maxSize →
        (r.applyOps ops).connections.length ≤ r.maxSize) ∧
    (((((Room.init "lobby").setMaxSize 2).addConnection 1).addConnection 2).addConnection 3).connections
      = [2, 3] := by
  refine ⟨?_, ?_, by decide⟩
  · intro r c hmax hlen hmem
    have hcap : 0 < r.maxSize ∧ r.maxSize ≤ r.connections.length := ⟨hmax, le_of_eq hlen.symm⟩
    constructor
    · simp [Room.addConnection, hmem, hcap]
    · simp [Room.addConnection, hmem, hcap, List.length_tail]
      omega
  · intro r ops hmax hlen
    induction ops generalizing r with
    | nil => exact hlen
    | cons o t ih =>
      have h1 := applyOp_len r o hmax hlen
      have h2 := applyOp_maxSize r o
      simpa [Room.applyOps, List.foldl_cons, h2] using
        ih (r.applyOp o) (h2 ▸ hmax) (h2 ▸ h1)

/-- Witness for C4: a room of capacity 2 holding `[1, 2]` accepts member 3
by evicting the front member. -/
theorem c4_witness :
    0 < (⟨"lobby", [1, 2], 2, []⟩ : Room).maxSize ∧
    ((⟨"lobby", [1, 2], 2, []⟩ : Room).addConnection 3).connections = [1, 2].tail ++ [3] :=
  ⟨by decide,
   (c4_capacity_eviction.1 ⟨"lobby", [1, 2], 2, []⟩ 3 (by decide) (by decide) (by decide)).1⟩

/-- Server state for the C7 scenario: two fresh connections, no rooms. -/
def c7Base : ServerState :=
  { connections := [Conn.init 1, Conn.init 2], rooms := [],
    isRunning := true, listening := true, maxConnections := 0 }

/-- C7 scenario after `join(room, 1)`, `join(room, 2)`, `leave(room, 1)`. -/
def c7AfterLeave : ServerState :=
  serverLeaveRoom (serverJoinRoom (serverJoinRoom c7Base 1 "room") 2 "room") 1 "room"

/-- C7: `leave` removes the leaving member from the room's member list and
deletes the room from the registry exactly when the member count drops to
zero (so `getRooms` no longer lists it); concretely, after joining 1 and 2
and leaving 1 the membership is `[2]`, and leaving 2 as well deletes the
room. -/
theorem c7_leave_removes_member :
    (∀ (s : ServerState) (id : Nat) (roomName : String) (r : Room),
        (findConn s id).isSome → findRoom s.rooms roomName = some r →
        ((r.connections.erase id = [] →
            findRoom (serverLeaveRoom s id roomName).rooms roomName = none ∧
            roomName ∉ getRoomsList (serverLeaveRoom s id roomName)) ∧
         (r.connections.erase id ≠ [] →
            ∃ r', findRoom (serverLeaveRoom s id roomName).rooms roomName = some r' ∧
              r'.connections = r.connections.erase id))) ∧
    (roomMembers c7AfterLeave "room" = [2] ∧
     getRoomsList (serverLeaveRoom c7AfterLeave 2 "room") = []) := by
  refine ⟨?_, by decide, by decide⟩
  intro s id roomName r hc hf
  obtain ⟨c, hcc⟩ := Option.isSome_iff_exists.mp hc
  have hname : r.name = roomName := findRoom_name _ _ _ hf
  simp only [serverLeaveRoom, hcc, hf, Room.removeConnection]
  split
  · next hz =>
    have hz' : r.connections.erase id = [] := List.length_eq_zero.mp (by simpa using hz)
    constructor
    · intro _
      constructor
      · exact findRoom_filter_ne _ _
      · intro hmem
        simp only [getRoomsList, List.mem_map, List.mem_filter, bne_iff_ne] at hmem
        obtain ⟨x, ⟨_, hx2⟩, hx3⟩ := hmem
        exact hx2 hx3
    · intro hnz
      exact absurd hz' hnz
  · next hz =>
    have hz' : r.connections.erase id ≠ [] := by
      intro hx
      exact hz (by simp [hx])
    constructor
    · intro h0
      exact absurd h0 hz'
    · intro _
      exact ⟨_, findRoom_map_const _ _ _ (by simpa using hname) _ hf, rfl⟩

/-- Witness for C7: in the concrete two-member state, connection 1's
departure leaves member list `[2]`. -/
theorem c7_witness :
    (findConn (serverJoinRoom (serverJoinRoom c7Base 1 "room") 2 "room") 1).isSome = true ∧
    ∃ r', findRoom (serverLeaveRoom
        (serverJoinRoom (serverJoinRoom c7Base 1 "room") 2 "room") 1 "room").rooms "room" =
          some r' ∧ r'.connections = [1, 2].erase 1 :=
  ⟨by decide,
   ((c7_leave_removes_member.1 (serverJoinRoom (serverJoinRoom c7Base 1 "room") 2 "room")
      1 "room" ⟨"room", [1, 2], 0, []⟩ (by decide) (by decide)).2 (by decide))⟩

/-- Server state for the C5 scenario: two fresh connections, no rooms. -/
def c5Base : ServerState :=
  { connections := [Conn.init 1, Conn.init 2], rooms := [],
    isRunning := true, listening := true, maxConnections := 0 }

/-- C5 scenario: room "r" capped at one member, then connection 1 joins and
connection 2 joins (evicting 1). -/
def c5After : ServerState :=
  serverJoinRoom (serverJoinRoom (serverSetMaxRoomSize c5Base "r" 1) 1 "r") 2 "r"

/-- C5: the bidirectional membership mirror breaks.  After the capacity
eviction, connection 1 still lists room "r" in its own `rooms` while the
room's member list is `[2]` — `AddConnection` evicts without updating the
evicted connection's mirror.  `OnDisconnect` likewise erases the
connection without removing it from any room's member list, leaving the
room pointing at a connection that no longer exists. -/
theorem c5_mirror_broken :
    connRooms c5After 1 = ["r"] ∧
    roomMembers c5After "r" = [2] ∧
    ¬ mirrorConsistent c5After ∧
    roomMembers (serverOnDisconnect c5After 2) "r" = [2] ∧
    findConn (serverOnDisconnect c5After 2) 2 = none := by
  decide

/-- C2 counterexample: the empty-payload Ping frame `[0x09, 0x00]` has
`fin == 0`, so the claim demands a ProtocolError and a close with
code 1002; instead the code answers with a Pong echo and a ping event and
never closes the transport. -/
theorem c2_counterexample :
    (handleFrameS (Conn.init 1) [0x09, 0x00]).2 =
      [.sendFrame WS_PONG [] false, .notifyPing] ∧
    WsAction.uvClose ∉ (handleFrameS (Conn.init 1) [0x09, 0x00]).2 := by
  decide

/-- C2 (amended): control frames with `payloadLength > 125` or `fin == 0`
are NOT rejected.  The decoder ignores the fin bit entirely (the result
depends on byte 0 only through its low nibble), and an over-long control
frame is dispatched exactly as a conforming one: a Ping is echoed with a
Pong carrying the same payload, a Pong just notifies, and a Close runs the
close handshake with the peer-supplied code and reason — no ProtocolError
and no close with code 1002 occurs. -/
theorem c2_no_control_validation :
    (∀ (c : Conn) (b0 b0' : Nat) (rest : List Nat), b0 &&& 0x0F = b0' &&& 0x0F →
        handleFrameS c (b0 :: rest) = handleFrameS c (b0' :: rest)) ∧
    (∀ (c : Conn) (bytes : List Nat) (f : Frame), c.isOpen = true →
        parseFrame bytes = some f → 125 < f.payload.length →
        ((f.opcode = WS_PING →
            (handleFrameS c bytes).2 =
              [.sendFrame WS_PONG f.payload false, .notifyPing]) ∧
         (f.opcode = WS_PONG → (handleFrameS c bytes).2 = [.notifyPong]) ∧
         (f.opcode = WS_CLOSE →
            (handleFrameS c bytes).2 =
              [.sendFrame WS_CLOSE
                  (closePayload (((f.payload.getD 0 0) <<< 8) ||| f.payload.getD 1 0)
                    (f.payload.drop 2)) false,
               .uvClose,
               .notifyDisconnect (((f.payload.getD 0 0) <<< 8) ||| f.payload.getD 1 0)
                 (f.payload.drop 2)]))) := by
  constructor
  · intro c b0 b0' rest h
    cases rest with
    | nil => rfl
    | cons b1 r2 =>
      simp only [handleFrameS, parseFrame]
      rw [h]
  · intro c bytes f hopen hp hlen
    refine ⟨?_, ?_, ?_⟩ <;> intro hop
    · simp [handleFrameS, hp, hop, WS_TEXT, WS_BINARY, WS_PING, Conn.sendFrameOp, hopen]
    · simp [handleFrameS, hp, hop, WS_TEXT, WS_BINARY, WS_PING, WS_PONG]
    · simp [handleFrameS, hp, hop, WS_TEXT, WS_BINARY, WS_PING, WS_PONG, WS_CLOSE,
        Conn.close, Conn.sendFrameOp, hopen,
        (by omega : 2 ≤ f.payload.length), (by omega : 2 < f.payload.length)]

set_option maxRecDepth 8000 in
/-- Witness for C2: a Ping with `fin == 0` and a 126-byte payload is
answered with a Pong echoing the payload. -/
theorem c2_witness :
    (handleFrameS (Conn.init 1) ([0x09, 126, 0, 126] ++ List.replicate 126 7)).2 =
      [.sendFrame WS_PONG (List.replicate 126 7) false, .notifyPing] :=
  (c2_no_control_validation.2 (Conn.init 1) ([0x09, 126, 0, 126] ++ List.replicate 126 7)
      ⟨WS_PING, false, List.replicate 126 7⟩ (by decide) (by decide) (by decide)).1 rfl

/-- C8 counterexample: on a transport read error with no close handshake
in progress (a fresh open connection), the code closes with code 1002
("Protocol error") — the close frame's status bytes are `[3, 234]`, the
big-endian encoding of 1002 — not with code 1005 (`[3, 237]`) as the
claim states. -/
theorem c8_counterexample :
    (onReadError (Conn.init 1) false).2 =
      [.sendFrame WS_CLOSE (closePayload 1002 protocolErrorReason) false, .uvClose] ∧
    (closePayload 1002 protocolErrorReason).take 2 = [3, 234] ∧
    (closePayload 1005 protocolErrorReason).take 2 = [3, 237] := by
  decide

/-- C8 (amended): a transport read error closes the connection with
code 1002 and reason "Protocol error"; EOF closes it with code 1000 and
reason "Connection closed by client".  The code keeps no close-handshake
state and never uses 1005 or a peer-supplied code on this path. -/
theorem c8_error_close_codes (c : Conn) (h : c.isOpen = true) :
    onReadError c false =
      ({ c with
            isOpen := false
            isAlive := false
            bytesSent := c.bytesSent +
              (sendFrameHeaderSize (closePayload 1002 protocolErrorReason).length +
                (closePayload 1002 protocolErrorReason).length) },
       [.sendFrame WS_CLOSE (closePayload 1002 protocolErrorReason) false, .uvClose]) ∧
    onReadError c true =
      ({ c with
            isOpen := false
            isAlive := false
            bytesSent := c.bytesSent +
              (sendFrameHeaderSize (closePayload 1000 clientClosedReason).length +
                (closePayload 1000 clientClosedReason).length) },
       [.sendFrame WS_CLOSE (closePayload 1000 clientClosedReason) false, .uvClose]) := by
  constructor <;>
    simp [onReadError, Conn.close, Conn.sendFrameOp, h]

/-- Witness for C8 at a fresh open connection. -/
theorem c8_witness :
    (Conn.init 1).isOpen = true ∧
    (onReadError (Conn.init 1) false).2 =
      [.sendFrame WS_CLOSE (closePayload 1002 protocolErrorReason) false, .uvClose] :=
  ⟨rfl, by rw [(c8_error_close_codes (Conn.init 1) rfl).1]⟩

/-- A running server with one open connection and one room, for C9. -/
def c9State : ServerState :=
  { connections := [Conn.init 1], rooms := [Room.init "r"],
    isRunning := true, listening := true, maxConnections := 0 }

/-- C9 counterexample: after `stop()` on a running server with one
connection and one room, both registries still hold their entries — the
claim that `stop()` clears the connection registry and the room registry
is false (only the destructor/cleanup path clears them). -/
theorem c9_counterexample :
    (serverStop c9State).1.connections ≠ [] ∧
    (serverStop c9State).1.rooms ≠ [] := by
  decide

/-- C9 (amended): `stop()` is idempotent; when the server is running it
sends a Close frame with code 1001 and reason "Server shutting down" to
every open connection, releases the listening resource and transitions to
stopped — but it does NOT clear the registries: the room registry is
unchanged and the connection registry keeps its (now closed) entries. -/
theorem c9_stop_keeps_registries :
    (∀ s : ServerState, serverStop (serverStop s).1 = ((serverStop s).1, [])) ∧
    (∀ s : ServerState, s.isRunning = true →
        ((serverStop s).1.isRunning = false ∧
         (serverStop s).1.listening = false ∧
         (serverStop s).1.rooms = s.rooms ∧
         (serverStop s).1.connections =
           s.connections.map (fun c => (c.close 1001 serverShuttingDownReason).1) ∧
         (∀ c ∈ s.connections, c.isOpen = true →
            (c.id, WsAction.sendFrame WS_CLOSE (closePayload 1001 serverShuttingDownReason) false)
              ∈ (serverStop s).2))) := by
  constructor
  · intro s
    by_cases h : s.isRunning <;> simp [serverStop, h]
  · intro s h
    refine ⟨by simp [serverStop, h], by simp [serverStop, h], by simp [serverStop, h],
      by simp [serverStop, h, List.map_map], ?_⟩
    intro c hc hopen
    simp only [serverStop, h, if_true, List.mem_flatten, List.map_map]
    refine ⟨((c.close 1001 serverShuttingDownReason).2.map (fun a => (c.id, a))), ?_, ?_⟩
    · simp only [List.mem_map]
      exact ⟨c, hc, rfl⟩
    · simp [Conn.close, Conn.sendFrameOp, hopen]

/-- Witness for C9 at the concrete running server. -/
theorem c9_witness :
    c9State.isRunning = true ∧
    (serverStop c9State).1.rooms = c9State.rooms ∧
    (1, WsAction.sendFrame WS_CLOSE (closePayload 1001 serverShuttingDownReason) false)
      ∈ (serverStop c9State).2 := by
  refine ⟨rfl, (c9_stop_keeps_registries.2 c9State rfl).2.2.1, ?_⟩
  have h := (c9_stop_keeps_registries.2 c9State rfl).2.2.2.2 (Conn.init 1) (by decide) (by decide)
  simpa using h

/-- C10: a complete frame whose opcode is none of Text, Binary, Ping,
Pong, Close (Continuation included) falls off the `switch` silently: the
read updates `bytesReceived` and `lastActivity` and nothing else — no
action reaches the transport or the event sink and no other connection
state changes. -/
theorem c10_unhandled_opcode_ignored (c : Conn) (bytes : List Nat) (now : Nat) (f : Frame)
    (hp : parseFrame bytes = some f)
    (hop : f.opcode ∉ [WS_TEXT, WS_BINARY, WS_PING, WS_PONG, WS_CLOSE]) :
    onReadData c bytes now =
      ({ c with bytesReceived := c.bytesReceived + bytes.length, lastActivity := now }, []) := by
  simp only [List.mem_cons, List.not_mem_nil, or_false, not_or] at hop
  obtain ⟨h1, h2, h3, h4, h5⟩ := hop
  simp [onReadData, handleFrameS, hp, h1, h2, h3, h4, h5]

/-- Witness for C10: a complete empty Continuation frame. -/
theorem c10_witness :
    parseFrame [0x00, 0x00] = some ⟨WS_CONTINUATION, false, []⟩ ∧
    onReadData (Conn.init 1) [0x00, 0x00] 5 =
      ({ Conn.init 1 with
            bytesReceived := (Conn.init 1).bytesReceived + 2
            lastActivity := 5 }, []) := by
  refine ⟨by decide, ?_⟩
  have h := c10_unhandled_opcode_ignored (Conn.init 1) [0x00, 0x00] 5
    ⟨WS_CONTINUATION, false, []⟩ (by decide) (by decide)
  simpa using h

end Ws
